import Mathlib

/-!
Shallow embedding of the syntx issues microservice (Rust, tonic + diesel).

The embedding follows `src/src/db/repos/*.rs` (store gateway layer) and
`src/src/controllers/*.rs` (the per-entity gRPC services).  Machinery that is
an external collaborator in the design (the Postgres engine, the tonic
transport, the tokio runtime) is modelled by explicit parameters:

* pool acquisition may fail (`poolOk : Bool`), mirroring
  `self.pool.get().expect("Db error")` which panics on a pool error;
* every store query takes a `fault : Option String` standing for an external
  store failure (connectivity, constraint violation, ...) of that one query;
* the database tables are a `Store` value, one `List` per table, kept in the
  order Postgres would return rows for these unordered queries (insertion
  order, inserts appending at the end);
* Rust panics (`expect` / `unwrap`) are an explicit `panic` outcome;
* the detached tokio tasks (stream producer loop, event publish) are modelled
  as explicit functions over the data the spawned closure captures.
-/

namespace SyntxIssues

/-- `chrono::NaiveDateTime`, as used for `epics.start_date` / `epics.due_date`:
whole seconds since the epoch plus subsecond nanoseconds.
`NaiveDateTime::from_timestamp(s, n)` is `⟨s, n⟩`, `.timestamp()` is `secs`,
`.timestamp_subsec_nanos()` is `nsecs`. -/
structure NDT where
  secs : Int
  nsecs : Nat
deriving DecidableEq, Repr

/-- SQL `<=` on timestamps (lexicographic on seconds then nanoseconds). -/
def NDT.le (a b : NDT) : Bool :=
  a.secs < b.secs || (a.secs == b.secs && a.nsecs ≤ b.nsecs)

/-- `prost_types::Timestamp` as it appears in the proto messages. -/
structure Timestamp where
  seconds : Int
  nanos : Nat
deriving DecidableEq, Repr

/-- Row of the `boards` table; also the `Board` Queryable struct of
`src/db/repos/board.rs` (field order matches the schema). -/
structure Board where
  id : String
  project_id : String
deriving DecidableEq, Repr

/-- Row of the `columns` table; also the `Column` Queryable struct of
`src/db/repos/column.rs`. -/
structure Column where
  id : String
  board_id : String
  name : String
deriving DecidableEq, Repr

/-- Row of the `issues` table; also the `Issue` Queryable struct of
`src/db/repos/issue.rs`. -/
structure Issue where
  id : String
  column_id : String
  epic_id : String
  title : String
  description : String
deriving DecidableEq, Repr

/-- Row of the `epics` table, fields in the column order declared in
`src/db/schema.rs`: id, column_id, assignee_id, reporter_id, name,
description, start_date, due_date. -/
structure EpicRow where
  id : String
  column_id : String
  assignee_id : Option String
  reporter_id : String
  name : String
  description : Option String
  start_date : NDT
  due_date : NDT
deriving DecidableEq, Repr

/-- The `Epic` Queryable struct of `src/db/repos/epic.rs`.  Its field order is
id, column_id, assignee_id, **name**, **reporter_id**, description,
start_date, due_date — `name` and `reporter_id` are swapped relative to the
schema column order, and diesel's `Queryable` maps columns to struct fields
positionally, so a loaded `Epic` carries the row's `reporter_id` column in its
`name` field and vice versa (see `Epic.fromRow`). -/
structure Epic where
  id : String
  column_id : String
  assignee_id : Option String
  name : String
  reporter_id : String
  description : Option String
  start_date : NDT
  due_date : NDT
deriving DecidableEq, Repr

/-- Positional `Queryable` mapping from an `epics` row to the repo's `Epic`
struct: struct field 4 (`name`) receives column 4 (`reporter_id`) and struct
field 5 (`reporter_id`) receives column 5 (`name`). -/
def Epic.fromRow (r : EpicRow) : Epic :=
  { id := r.id
    column_id := r.column_id
    assignee_id := r.assignee_id
    name := r.reporter_id
    reporter_id := r.name
    description := r.description
    start_date := r.start_date
    due_date := r.due_date }

/-- Row of the `dependencies` table; also the `Dependency` Queryable struct of
`src/db/repos/dependency.rs`. -/
structure Dependency where
  id : String
  blocking_epic_id : String
  blocked_epic_id : String
deriving DecidableEq, Repr

/-- The database: one table per entity.  Lists keep row order; an insert
appends at the end. -/
structure Store where
  boards : List Board
  columns : List Column
  issues : List Issue
  epics : List EpicRow
  dependencies : List Dependency
deriving DecidableEq, Repr

/-- `diesel::result::Error`, restricted to what the code distinguishes:
`NotFound` versus everything else. -/
inductive DbError where
  | notFound
  | other (msg : String)
deriving DecidableEq, Repr

/-- gRPC status codes this service produces on failure. -/
inductive StatusCode where
  | notFound
  | unavailable
deriving DecidableEq, Repr

/-- Caller-visible result of one RPC handler: a successful response, a
terminal error status, or a process panic (`expect` / `unwrap` firing). -/
inductive RpcOutcome (α : Type) where
  | ok (resp : α)
  | err (code : StatusCode) (msg : String)
  | panic (msg : String)
deriving DecidableEq, Repr

/-- Result of repo-layer Rust code that can panic but not return an error
(the Issue and Column repos `.expect(..)` every store error away). -/
inductive PanicOr (α : Type) where
  | ok (a : α)
  | panic (msg : String)
deriving DecidableEq, Repr

/-! ## Changesets (diesel `AsChangeset`, `None` fields are skipped) -/

/-- `IssueChangeSet` of `src/db/repos/issue.rs`. -/
structure IssueChangeSet where
  column_id : Option String
  epic_id : Option String
  title : Option String
  description : Option String
deriving DecidableEq, Repr

/-- Apply an `IssueChangeSet` to one row: `Some` fields overwrite the column,
`None` fields leave it untouched. -/
def IssueChangeSet.apply (cs : IssueChangeSet) (i : Issue) : Issue :=
  { id := i.id
    column_id := cs.column_id.getD i.column_id
    epic_id := cs.epic_id.getD i.epic_id
    title := cs.title.getD i.title
    description := cs.description.getD i.description }

/-- An all-`None` changeset sets no column.  diesel refuses to build an
UPDATE from such a changeset and returns
`Err(Error::QueryBuilderError("There are no changes to save..."))` instead of
touching the store. -/
def IssueChangeSet.isNoChange (cs : IssueChangeSet) : Bool :=
  cs.column_id.isNone && cs.epic_id.isNone && cs.title.isNone && cs.description.isNone

/-- `EpicChangeSet` of `src/db/repos/epic.rs`. -/
structure EpicChangeSet where
  column_id : Option String
  assignee_id : Option String
  name : Option String
  reporter_id : Option String
  description : Option String
  start_date : Option NDT
  due_date : Option NDT
deriving DecidableEq, Repr

/-- Apply an `EpicChangeSet` to one `epics` row.  `AsChangeset` matches by
field name, so `cs.name` writes the `name` column (no swap here; the swap is
only in the positional `Queryable` read path).  `None` skips the column;
`cs.assignee_id = none` / `cs.description = none` therefore cannot clear
those nullable columns. -/
def EpicChangeSet.apply (cs : EpicChangeSet) (r : EpicRow) : EpicRow :=
  { id := r.id
    column_id := cs.column_id.getD r.column_id
    assignee_id := (cs.assignee_id.map some).getD r.assignee_id
    reporter_id := cs.reporter_id.getD r.reporter_id
    name := cs.name.getD r.name
    description := (cs.description.map some).getD r.description
    start_date := cs.start_date.getD r.start_date
    due_date := cs.due_date.getD r.due_date }

/-- All-`None` `EpicChangeSet`: diesel would refuse to build the UPDATE
(`QueryBuilderError`).  Unreachable through `update_epic`, which always puts
`Some` dates into the changeset. -/
def EpicChangeSet.isNoChange (cs : EpicChangeSet) : Bool :=
  cs.column_id.isNone && cs.assignee_id.isNone && cs.name.isNone
    && cs.reporter_id.isNone && cs.description.isNone
    && cs.start_date.isNone && cs.due_date.isNone

/-- `ColumnChangeSet` of `src/db/repos/column.rs`. -/
structure ColumnChangeSet where
  name : Option String
deriving DecidableEq, Repr

def ColumnChangeSet.apply (cs : ColumnChangeSet) (c : Column) : Column :=
  { id := c.id
    board_id := c.board_id
    name := cs.name.getD c.name }

/-- All-`None` `ColumnChangeSet`: diesel would refuse to build the UPDATE
(`QueryBuilderError`).  Unreachable through `update_column`, which always
puts `Some(column_name)` into the changeset. -/
def ColumnChangeSet.isNoChange (cs : ColumnChangeSet) : Bool :=
  cs.name.isNone

/-! ## Store gateway (src/db/repos)

Each repo function takes the `fault` of its single store query.  A `fault`
stands for the query failing externally; `none` means the engine executes the
modelled query on the `Store`. -/

/-- `Board::create` (src/db/repos/board.rs).  Insert errors are propagated as
`Err`; the inserted-rows vector returned by `get_results` is `[new]` so the
`.first().unwrap()` succeeds. -/
def Board.create (new : Board) (fault : Option String) (st : Store) :
    Except DbError (Board × Store) :=
  match fault with
  | some msg => .error (.other msg)
  | none => .ok (new, { st with boards := st.boards ++ [new] })

/-- `Board::delete` (src/db/repos/board.rs): delete rows whose id matches,
`get_results` returns the deleted rows; an empty result is `Err(NotFound)`. -/
def Board.delete (board_id : String) (fault : Option String) (st : Store) :
    Except DbError (Board × Store) :=
  match fault with
  | some msg => .error (.other msg)
  | none =>
    match st.boards.filter (fun b => b.id == board_id) with
    | [] => .error .notFound
    | b :: _ =>
      .ok (b, { st with boards := st.boards.filter (fun x => !(x.id == board_id)) })

/-- `Column::create` (src/db/repos/column.rs): the store error is
`.expect("Create column error")`-ed away, i.e. it panics. -/
def Column.create (new : Column) (fault : Option String) (st : Store) :
    PanicOr (Column × Store) :=
  match fault with
  | some _ => .panic "Create column error"
  | none => .ok (new, { st with columns := st.columns ++ [new] })

/-- `Column::update` (src/db/repos/column.rs): an all-`None` changeset is
refused by diesel's query builder (`QueryBuilderError`, before the store is
contacted) and store errors fail too — both are `.expect("Update column
error")`-ed away (panic); an id with no matching row yields an empty
`get_results` vector whose `.first().unwrap()` panics — there is no
`NotFound` return. -/
def Column.update (column_id : String) (cs : ColumnChangeSet)
    (fault : Option String) (st : Store) : PanicOr (Column × Store) :=
  if cs.isNoChange then .panic "Update column error"
  else
    match fault with
    | some _ => .panic "Update column error"
    | none =>
      match (st.columns.filter (fun c => c.id == column_id)).map cs.apply with
      | [] => .panic "called `Option::unwrap()` on a `None` value"
      | c :: _ =>
        let updated := st.columns.map (fun x => if x.id == column_id then cs.apply x else x)
        .ok (c, { st with columns := updated })

/-- `Column::delete` (src/db/repos/column.rs): same panicking shape as
`Column::update` (its expect message even says "Update column error"). -/
def Column.delete (column_id : String) (fault : Option String) (st : Store) :
    PanicOr (Column × Store) :=
  match fault with
  | some _ => .panic "Update column error"
  | none =>
    match st.columns.filter (fun c => c.id == column_id) with
    | [] => .panic "called `Option::unwrap()` on a `None` value"
    | c :: _ =>
      .ok (c, { st with columns := st.columns.filter (fun x => !(x.id == column_id)) })

/-- `Issue::create` (src/db/repos/issue.rs): the store error is
`.expect("Create issue error")`-ed away (panic). -/
def Issue.create (new : Issue) (fault : Option String) (st : Store) :
    PanicOr (Issue × Store) :=
  match fault with
  | some _ => .panic "Create issue error"
  | none => .ok (new, { st with issues := st.issues ++ [new] })

/-- `Issue::update` (src/db/repos/issue.rs): an all-`None` changeset is
refused by diesel's query builder (`Err(QueryBuilderError("There are no
changes to save..."))`, raised while building the query, before the store is
contacted and for present and absent ids alike) and store errors fail too —
both are `.expect("Update issue error")`-ed away (panic); an absent id with
a non-empty changeset gives an empty result whose `.first().unwrap()` panics
— no `NotFound` return exists. -/
def Issue.update (issue_id : String) (cs : IssueChangeSet)
    (fault : Option String) (st : Store) : PanicOr (Issue × Store) :=
  if cs.isNoChange then .panic "Update issue error"
  else
    match fault with
    | some _ => .panic "Update issue error"
    | none =>
      match (st.issues.filter (fun i => i.id == issue_id)).map cs.apply with
      | [] => .panic "called `Option::unwrap()` on a `None` value"
      | i :: _ =>
        let updated := st.issues.map (fun x => if x.id == issue_id then cs.apply x else x)
        .ok (i, { st with issues := updated })

/-- `Issue::delete` (src/db/repos/issue.rs): same panicking shape (its expect
message is the copy-pasted "Update issue error"). -/
def Issue.delete (issue_id : String) (fault : Option String) (st : Store) :
    PanicOr (Issue × Store) :=
  match fault with
  | some _ => .panic "Update issue error"
  | none =>
    match st.issues.filter (fun i => i.id == issue_id) with
    | [] => .panic "called `Option::unwrap()` on a `None` value"
    | i :: _ =>
      .ok (i, { st with issues := st.issues.filter (fun x => !(x.id == issue_id)) })

/-- `NewEpic` of src/db/repos/epic.rs (`Insertable`, matched by field name). -/
structure NewEpic where
  id : String
  column_id : String
  assignee_id : Option String
  reporter_id : String
  name : String
  description : Option String
  start_date : Option NDT
  due_date : Option NDT
deriving DecidableEq, Repr

/-- The row an insert of a `NewEpic` produces.  The date fields are
`Option<NaiveDateTime>` on the insertable struct but the columns are not
nullable; inserting `None` would be rejected by the engine (`none` here).
Every controller call site passes `Some`. -/
def NewEpic.toRow (n : NewEpic) : Option EpicRow :=
  match n.start_date, n.due_date with
  | some sd, some dd =>
    some { id := n.id
           column_id := n.column_id
           assignee_id := n.assignee_id
           reporter_id := n.reporter_id
           name := n.name
           description := n.description
           start_date := sd
           due_date := dd }
  | _, _ => none

/-- `Epic::create` (src/db/repos/epic.rs): insert errors are propagated as
`Err`; on success `get_results` returns the inserted row, read back through
the positional `Queryable` mapping (`Epic.fromRow`). -/
def Epic.create (new : NewEpic) (fault : Option String) (st : Store) :
    Except DbError (Epic × Store) :=
  match fault with
  | some msg => .error (.other msg)
  | none =>
    match new.toRow with
    | none => .error (.other "null value in column violates not-null constraint")
    | some row => .ok (Epic.fromRow row, { st with epics := st.epics ++ [row] })

/-- `Epic::update` (src/db/repos/epic.rs): an all-`None` changeset would be
refused by diesel's query builder (`Err(QueryBuilderError)`, propagated as a
non-NotFound error; unreachable from `update_epic`, which always supplies
the dates); otherwise update rows whose id matches with the changeset; an
empty `get_results` vector is `Err(NotFound)`; the returned record goes
through `Epic.fromRow`. -/
def Epic.update (epic_id : String) (cs : EpicChangeSet)
    (fault : Option String) (st : Store) : Except DbError (Epic × Store) :=
  if cs.isNoChange then .error (.other "There are no changes to save.")
  else
    match fault with
    | some msg => .error (.other msg)
    | none =>
      match (st.epics.filter (fun e => e.id == epic_id)).map cs.apply with
      | [] => .error .notFound
      | r :: _ =>
        let updated := st.epics.map (fun x => if x.id == epic_id then cs.apply x else x)
        .ok (Epic.fromRow r, { st with epics := updated })

/-- `Epic::delete` (src/db/repos/epic.rs): delete rows whose id matches; an
empty result is `Err(NotFound)`. -/
def Epic.delete (epic_id : String) (fault : Option String) (st : Store) :
    Except DbError (Epic × Store) :=
  match fault with
  | some msg => .error (.other msg)
  | none =>
    match st.epics.filter (fun e => e.id == epic_id) with
    | [] => .error .notFound
    | r :: _ =>
      .ok (Epic.fromRow r, { st with epics := st.epics.filter (fun x => !(x.id == epic_id)) })

/-- `Dependency::create` (src/db/repos/dependency.rs): insert errors are
propagated as `Err`. -/
def Dependency.create (new : Dependency) (fault : Option String) (st : Store) :
    Except DbError (Dependency × Store) :=
  match fault with
  | some msg => .error (.other msg)
  | none => .ok (new, { st with dependencies := st.dependencies ++ [new] })

/-- `Dependency::delete` (src/db/repos/dependency.rs): an empty result is
`Err(NotFound)`. -/
def Dependency.delete (dependency_id : String) (fault : Option String) (st : Store) :
    Except DbError (Dependency × Store) :=
  match fault with
  | some msg => .error (.other msg)
  | none =>
    match st.dependencies.filter (fun d => d.id == dependency_id) with
    | [] => .error .notFound
    | d :: _ =>
      let remaining := st.dependencies.filter (fun x => !(x.id == dependency_id))
      .ok (d, { st with dependencies := remaining })

/-! ## Proto request / response messages (proto/issues) -/

/-- `SearchIssuesParams`. -/
structure SearchIssuesParams where
  issues_ids : List String
  column_id : Option String
  epic_id : Option String
  limit : Option Nat
  offset : Option Nat
deriving DecidableEq, Repr

/-- `SearchEpicsParams`. -/
structure SearchEpicsParams where
  epics_ids : List String
  column_id : Option String
  min_start_date : Option Timestamp
  max_due_date : Option Timestamp
  limit : Option Nat
  offset : Option Nat
deriving DecidableEq, Repr

/-- `SearchColumnsParams`. -/
structure SearchColumnsParams where
  columns_ids : List String
  board_id : Option String
  limit : Option Nat
  offset : Option Nat
deriving DecidableEq, Repr

/-- `SearchDependenciesParams`. -/
structure SearchDependenciesParams where
  dependencies_ids : List String
  blocking_epic_id : Option String
  blocked_epic_id : Option String
  limit : Option Nat
  offset : Option Nat
deriving DecidableEq, Repr

/-- `CreateIssueRequest`. -/
structure CreateIssueRequest where
  column_id : String
  epic_id : String
  title : String
  description : String
deriving DecidableEq, Repr

/-- `UpdateIssueRequest`: all updatable fields optional. -/
structure UpdateIssueRequest where
  issue_id : String
  column_id : Option String
  epic_id : Option String
  title : Option String
  description : Option String
deriving DecidableEq, Repr

/-- `CreateEpicRequest`: `column_id`, `assignee_id`, `description`,
`start_date`, `due_date` are optional proto fields. -/
structure CreateEpicRequest where
  column_id : Option String
  assignee_id : Option String
  reporter_id : String
  name : String
  description : Option String
  start_date : Option Timestamp
  due_date : Option Timestamp
deriving DecidableEq, Repr

/-- `UpdateEpicRequest`: every updatable field is optional on the wire,
including the two dates (which the handler nevertheless unwraps). -/
structure UpdateEpicRequest where
  epic_id : String
  column_id : Option String
  assignee_id : Option String
  name : Option String
  reporter_id : Option String
  description : Option String
  start_date : Option Timestamp
  due_date : Option Timestamp
deriving DecidableEq, Repr

/-- `CreateDependencyRequest`. -/
structure CreateDependencyRequest where
  blocking_epic_id : String
  blocked_epic_id : String
deriving DecidableEq, Repr

/-- `BoardIdAndColumnName` (the create-column request). -/
structure BoardIdAndColumnName where
  board_id : String
  column_name : String
deriving DecidableEq, Repr

/-- `ColumnIdAndName` (the update-column request; `column_name` is a required
string, so "name omitted" is not representable). -/
structure ColumnIdAndName where
  column_id : String
  column_name : String
deriving DecidableEq, Repr

/-- `proto::issues::Epic`, the RPC response record for epics (dates as
`prost_types::Timestamp`). -/
structure ProtoEpic where
  id : String
  column_id : String
  assignee_id : Option String
  reporter_id : String
  name : String
  description : Option String
  start_date : Option Timestamp
  due_date : Option Timestamp
deriving DecidableEq, Repr

/-- Build the RPC `ProtoEpic` from a loaded repo `Epic`, converting its two
`NaiveDateTime`s to `Timestamp`s (seconds + subsecond nanos, the same values
both the `Timestamp {..}` literals and the `SystemTime` round-trip produce). -/
def ProtoEpic.ofEpic (ep : Epic) : ProtoEpic :=
  { id := ep.id
    column_id := ep.column_id
    assignee_id := ep.assignee_id
    reporter_id := ep.reporter_id
    name := ep.name
    description := ep.description
    start_date := some ⟨ep.start_date.secs, ep.start_date.nsecs⟩
    due_date := some ⟨ep.due_date.secs, ep.due_date.nsecs⟩ }

/-- SQL semantics of the optional `LIMIT` / `OFFSET` clauses a boxed diesel
query carries: the offset rows are skipped first, then at most `limit` rows
are returned.  An absent clause imposes no bound. -/
def applyPagination {α : Type} (rows : List α) (lim off : Option Nat) : List α :=
  let afterOffset := match off with
    | some k => rows.drop k
    | none => rows
  match lim with
  | some n => afterOffset.take n
  | none => afterOffset

/-! ## Controllers (src/controllers)

Every handler first acquires a pooled connection via
`self.pool.get().expect("Db error")`: a pool failure (`poolOk = false`)
panics.  Unary handlers return the caller-visible outcome (and the resulting
store for the mutating ones); search handlers return the materialized result
list their stream hands off (the emission loop itself is `emitRun` below). -/

/-- `get_board_by_id` (src/controllers/boards.rs): load at most one board with
the given id; absent row is NotFound, a store error is Unavailable. -/
def get_board_by_id (poolOk : Bool) (fault : Option String) (st : Store)
    (board_id : String) : RpcOutcome Board :=
  if poolOk then
    match fault with
    | some _ => .err .unavailable "Database is unavailable"
    | none =>
      match ((st.boards.filter (fun b => b.id == board_id)).take 1).head? with
      | some b => .ok { id := b.id, project_id := b.project_id }
      | none => .err .notFound "Board not found"
  else .panic "Db error"

/-- `get_board_by_project_id` (src/controllers/boards.rs): same shape keyed on
the `project_id` column. -/
def get_board_by_project_id (poolOk : Bool) (fault : Option String) (st : Store)
    (proj_id : String) : RpcOutcome Board :=
  if poolOk then
    match fault with
    | some _ => .err .unavailable "Database is unavailable"
    | none =>
      match ((st.boards.filter (fun b => b.project_id == proj_id)).take 1).head? with
      | some b => .ok { id := b.id, project_id := b.project_id }
      | none => .err .notFound "Board not found"
  else .panic "Db error"

/-- `create_board` (src/controllers/boards.rs).  The fresh uuid minted at the
call site is the `newId` parameter. -/
def create_board (poolOk : Bool) (fault : Option String) (st : Store)
    (proj_id : String) (newId : String) : RpcOutcome Board × Store :=
  if poolOk then
    match Board.create { id := newId, project_id := proj_id } fault st with
    | .ok (b, st') => (.ok { id := b.id, project_id := b.project_id }, st')
    | .error _ => (.err .unavailable "Database is unavailable", st)
  else (.panic "Db error", st)

/-- `delete_board` (src/controllers/boards.rs): `Err(NotFound)` maps to the
NotFound status, any other store error to Unavailable. -/
def delete_board (poolOk : Bool) (fault : Option String) (st : Store)
    (board_id : String) : RpcOutcome Board × Store :=
  if poolOk then
    match Board.delete board_id fault st with
    | .ok (b, st') => (.ok { id := b.id, project_id := b.project_id }, st')
    | .error .notFound => (.err .notFound "Board not found", st)
    | .error (.other _) => (.err .unavailable "Database is unavailable", st)
  else (.panic "Db error", st)

/-- `get_column_by_id` (src/controllers/columns.rs). -/
def get_column_by_id (poolOk : Bool) (fault : Option String) (st : Store)
    (column_id : String) : RpcOutcome Column :=
  if poolOk then
    match fault with
    | some _ => .err .unavailable "Database is unavailable"
    | none =>
      match ((st.columns.filter (fun c => c.id == column_id)).take 1).head? with
      | some c => .ok { id := c.id, board_id := c.board_id, name := c.name }
      | none => .err .notFound "Column not found"
  else .panic "Db error"

/-- `search_columns` (src/controllers/columns.rs): a non-empty id set and an
optional `board_id` equality filter AND together; the request's `limit` and
`offset` fields are never applied to the query (they are only echoed into the
outcome event), so the full matching set is materialized. -/
def search_columns (poolOk : Bool) (fault : Option String) (st : Store)
    (p : SearchColumnsParams) : RpcOutcome (List Column) :=
  if poolOk then
    match fault with
    | some _ => .err .unavailable "Database is unavailable"
    | none =>
      let rows := st.columns
      let rows := if p.columns_ids.isEmpty then rows
        else rows.filter (fun c => p.columns_ids.contains c.id)
      let rows := match p.board_id with
        | some b => rows.filter (fun c => c.board_id == b)
        | none => rows
      .ok rows
  else .panic "Db error"

/-- `create_column` (src/controllers/columns.rs): a store failure inside
`Column::create` panics before the handler's Unavailable arm can run. -/
def create_column (poolOk : Bool) (fault : Option String) (st : Store)
    (req : BoardIdAndColumnName) (newId : String) : RpcOutcome Column × Store :=
  if poolOk then
    match Column.create { id := newId, board_id := req.board_id, name := req.column_name } fault st with
    | .ok (c, st') => (.ok { id := c.id, board_id := c.board_id, name := c.name }, st')
    | .panic m => (.panic m, st)
  else (.panic "Db error", st)

/-- `update_column` (src/controllers/columns.rs): the changeset always carries
`Some(column_name)` (the request field is mandatory); `Column::update` panics
on a store failure or an absent id, so the handler's NotFound / Unavailable
arms are unreachable. -/
def update_column (poolOk : Bool) (fault : Option String) (st : Store)
    (req : ColumnIdAndName) : RpcOutcome Column × Store :=
  if poolOk then
    match Column.update req.column_id { name := some req.column_name } fault st with
    | .ok (c, st') => (.ok { id := c.id, board_id := c.board_id, name := c.name }, st')
    | .panic m => (.panic m, st)
  else (.panic "Db error", st)

/-- `delete_column` (src/controllers/columns.rs): `Column::delete` panics on a
store failure or an absent id. -/
def delete_column (poolOk : Bool) (fault : Option String) (st : Store)
    (column_id : String) : RpcOutcome Column × Store :=
  if poolOk then
    match Column.delete column_id fault st with
    | .ok (c, st') => (.ok { id := c.id, board_id := c.board_id, name := c.name }, st')
    | .panic m => (.panic m, st)
  else (.panic "Db error", st)

/-- `get_issue_by_id` (src/controllers/issues.rs). -/
def get_issue_by_id (poolOk : Bool) (fault : Option String) (st : Store)
    (issue_id : String) : RpcOutcome Issue :=
  if poolOk then
    match fault with
    | some _ => .err .unavailable "Database is unavailable"
    | none =>
      match ((st.issues.filter (fun i => i.id == issue_id)).take 1).head? with
      | some i => .ok { id := i.id, column_id := i.column_id, epic_id := i.epic_id,
                        title := i.title, description := i.description }
      | none => .err .notFound "Issue not found"
  else .panic "Db error"

/-- `search_issues` (src/controllers/issues.rs).  The `epic_id` filter arm of
the source reads `query.filter(column_id.eq(col_id))` — it constrains the
`column_id` column with the requested epic id, not the `epic_id` column.
`limit` and `offset` are applied as SQL clauses. -/
def search_issues (poolOk : Bool) (fault : Option String) (st : Store)
    (p : SearchIssuesParams) : RpcOutcome (List Issue) :=
  if poolOk then
    match fault with
    | some _ => .err .unavailable "Database is unavailable"
    | none =>
      let rows := st.issues
      let rows := if p.issues_ids.isEmpty then rows
        else rows.filter (fun i => p.issues_ids.contains i.id)
      let rows := match p.column_id with
        | some c => rows.filter (fun i => i.column_id == c)
        | none => rows
      let rows := match p.epic_id with
        | some e => rows.filter (fun i => i.column_id == e)
        | none => rows
      .ok (applyPagination rows p.limit p.offset)
  else .panic "Db error"

/-- `create_issue` (src/controllers/issues.rs): a store failure inside
`Issue::create` panics before the handler's Unavailable arm can run. -/
def create_issue (poolOk : Bool) (fault : Option String) (st : Store)
    (req : CreateIssueRequest) (newId : String) : RpcOutcome Issue × Store :=
  if poolOk then
    match Issue.create { id := newId, column_id := req.column_id, epic_id := req.epic_id,
                         title := req.title, description := req.description } fault st with
    | .ok (i, st') => (.ok { id := i.id, column_id := i.column_id, epic_id := i.epic_id,
                             title := i.title, description := i.description }, st')
    | .panic m => (.panic m, st)
  else (.panic "Db error", st)

/-- `update_issue` (src/controllers/issues.rs): the changeset passes the
optional request fields straight through; `Issue::update` panics on a store
failure or an absent id, so the handler's NotFound / Unavailable arms are
unreachable. -/
def update_issue (poolOk : Bool) (fault : Option String) (st : Store)
    (req : UpdateIssueRequest) : RpcOutcome Issue × Store :=
  if poolOk then
    match Issue.update req.issue_id
        { column_id := req.column_id, epic_id := req.epic_id,
          title := req.title, description := req.description } fault st with
    | .ok (i, st') => (.ok { id := i.id, column_id := i.column_id, epic_id := i.epic_id,
                             title := i.title, description := i.description }, st')
    | .panic m => (.panic m, st)
  else (.panic "Db error", st)

/-- `delete_issue` (src/controllers/issues.rs): `Issue::delete` panics on a
store failure or an absent id. -/
def delete_issue (poolOk : Bool) (fault : Option String) (st : Store)
    (issue_id : String) : RpcOutcome Issue × Store :=
  if poolOk then
    match Issue.delete issue_id fault st with
    | .ok (i, st') => (.ok { id := i.id, column_id := i.column_id, epic_id := i.epic_id,
                             title := i.title, description := i.description }, st')
    | .panic m => (.panic m, st)
  else (.panic "Db error", st)

/-- `get_epic_by_id` (src/controllers/epics.rs): the loaded record passes
through the positional Queryable mapping, the response timestamps come from
its `start_date` / `due_date`. -/
def get_epic_by_id (poolOk : Bool) (fault : Option String) (st : Store)
    (epic_id : String) : RpcOutcome ProtoEpic :=
  if poolOk then
    match fault with
    | some _ => .err .unavailable "Database is unavailable"
    | none =>
      match ((st.epics.filter (fun e => e.id == epic_id)).take 1).head? with
      | some row => .ok (ProtoEpic.ofEpic (Epic.fromRow row))
      | none => .err .notFound "Epic not found"
  else .panic "Db error"

/-- `search_epics` (src/controllers/epics.rs).  Filters: optional id set,
optional `column_id` equality, `min_start_date` as `start_date >= min`, and
`max_due_date` applied by the source as `start_date <= max` (the `due_date`
column is never constrained).  `limit` / `offset` are applied as clauses. -/
def search_epics (poolOk : Bool) (fault : Option String) (st : Store)
    (p : SearchEpicsParams) : RpcOutcome (List ProtoEpic) :=
  if poolOk then
    match fault with
    | some _ => .err .unavailable "Database is unavailable"
    | none =>
      let rows := st.epics
      let rows := if p.epics_ids.isEmpty then rows
        else rows.filter (fun e => p.epics_ids.contains e.id)
      let rows := match p.column_id with
        | some c => rows.filter (fun e => e.column_id == c)
        | none => rows
      let rows := match p.min_start_date with
        | some ts => rows.filter (fun e => NDT.le ⟨ts.seconds, ts.nanos⟩ e.start_date)
        | none => rows
      let rows := match p.max_due_date with
        | some ts => rows.filter (fun e => NDT.le e.start_date ⟨ts.seconds, ts.nanos⟩)
        | none => rows
      .ok ((applyPagination rows p.limit p.offset).map (fun r => ProtoEpic.ofEpic (Epic.fromRow r)))
  else .panic "Db error"

/-- `create_epic` (src/controllers/epics.rs).  When `column_id` is absent the
handler runs an auxiliary `columns.limit(1).load` query whose error is
`.expect("Create epic error")`-ed (panic) and whose empty result is
`.unwrap()`-ed (panic); otherwise the first column's id is used.  The two
request dates are then `.unwrap()`-ed (panic when absent) and truncated to
whole seconds by `NaiveDateTime::from_timestamp(secs, 0)`.  `auxFault` is the
fault of the auxiliary columns query, `insFault` that of the insert. -/
def create_epic (poolOk : Bool) (auxFault insFault : Option String) (st : Store)
    (req : CreateEpicRequest) (newId : String) : RpcOutcome ProtoEpic × Store :=
  if poolOk then
    let colId? : PanicOr String :=
      match req.column_id with
      | some c => .ok c
      | none =>
        match auxFault with
        | some _ => .panic "Create epic error"
        | none =>
          match ((st.columns.take 1)).head? with
          | some c => .ok c.id
          | none => .panic "called `Option::unwrap()` on a `None` value"
    match colId? with
    | .panic m => (.panic m, st)
    | .ok colId =>
      match req.start_date, req.due_date with
      | some sd, some dd =>
        let start : NDT := ⟨sd.seconds, 0⟩
        let due : NDT := ⟨dd.seconds, 0⟩
        match Epic.create
            { id := newId, column_id := colId, assignee_id := req.assignee_id,
              reporter_id := req.reporter_id, name := req.name,
              description := req.description,
              start_date := some start, due_date := some due } insFault st with
        | .ok (ep, st') =>
          (.ok { id := ep.id, column_id := ep.column_id, assignee_id := ep.assignee_id,
                 reporter_id := ep.reporter_id, name := ep.name,
                 description := ep.description,
                 start_date := some ⟨start.secs, start.nsecs⟩,
                 due_date := some ⟨due.secs, due.nsecs⟩ }, st')
        | .error _ => (.err .unavailable "Database is unavailable", st)
      | _, _ => (.panic "called `Option::unwrap()` on a `None` value", st)
  else (.panic "Db error", st)

/-- `update_epic` (src/controllers/epics.rs).  The handler `.unwrap()`s the
request's `start_date` and `due_date` (panic when either is absent) and puts
`Some(start)` / `Some(due)` into the changeset unconditionally, so the two
date columns are always overwritten; the remaining five changeset fields pass
the optional request fields through. -/
def update_epic (poolOk : Bool) (fault : Option String) (st : Store)
    (req : UpdateEpicRequest) : RpcOutcome ProtoEpic × Store :=
  if poolOk then
    match req.start_date, req.due_date with
    | some sd, some dd =>
      let start : NDT := ⟨sd.seconds, 0⟩
      let due : NDT := ⟨dd.seconds, 0⟩
      match Epic.update req.epic_id
          { column_id := req.column_id, assignee_id := req.assignee_id,
            name := req.name, reporter_id := req.reporter_id,
            description := req.description,
            start_date := some start, due_date := some due } fault st with
      | .ok (ep, st') =>
        (.ok { id := ep.id, column_id := ep.column_id, assignee_id := ep.assignee_id,
               reporter_id := ep.reporter_id, name := ep.name,
               description := ep.description,
               start_date := some ⟨start.secs, start.nsecs⟩,
               due_date := some ⟨due.secs, due.nsecs⟩ }, st')
      | .error .notFound => (.err .notFound "Epic not found", st)
      | .error (.other _) => (.err .unavailable "Database is unavailable", st)
    | _, _ => (.panic "called `Option::unwrap()` on a `None` value", st)
  else (.panic "Db error", st)

/-- `delete_epic` (src/controllers/epics.rs). -/
def delete_epic (poolOk : Bool) (fault : Option String) (st : Store)
    (epic_id : String) : RpcOutcome ProtoEpic × Store :=
  if poolOk then
    match Epic.delete epic_id fault st with
    | .ok (ep, st') => (.ok (ProtoEpic.ofEpic ep), st')
    | .error .notFound => (.err .notFound "Epic not found", st)
    | .error (.other _) => (.err .unavailable "Database is unavailable", st)
  else (.panic "Db error", st)

/-- `get_dependency_by_id` (src/controllers/dependencies.rs). -/
def get_dependency_by_id (poolOk : Bool) (fault : Option String) (st : Store)
    (dependency_id : String) : RpcOutcome Dependency :=
  if poolOk then
    match fault with
    | some _ => .err .unavailable "Database is unavailable"
    | none =>
      match ((st.dependencies.filter (fun d => d.id == dependency_id)).take 1).head? with
      | some d => .ok { id := d.id, blocking_epic_id := d.blocking_epic_id,
                        blocked_epic_id := d.blocked_epic_id }
      | none => .err .notFound "Dependency not found"
  else .panic "Db error"

/-- `search_dependencies` (src/controllers/dependencies.rs): id set and the
two epic-id equality filters AND together; as in `search_columns`, the
request's `limit` / `offset` are never applied to the query. -/
def search_dependencies (poolOk : Bool) (fault : Option String) (st : Store)
    (p : SearchDependenciesParams) : RpcOutcome (List Dependency) :=
  if poolOk then
    match fault with
    | some _ => .err .unavailable "Database is unavailable"
    | none =>
      let rows := st.dependencies
      let rows := if p.dependencies_ids.isEmpty then rows
        else rows.filter (fun d => p.dependencies_ids.contains d.id)
      let rows := match p.blocking_epic_id with
        | some e => rows.filter (fun d => d.blocking_epic_id == e)
        | none => rows
      let rows := match p.blocked_epic_id with
        | some e => rows.filter (fun d => d.blocked_epic_id == e)
        | none => rows
      .ok rows
  else .panic "Db error"

/-- `create_dependency` (src/controllers/dependencies.rs). -/
def create_dependency (poolOk : Bool) (fault : Option String) (st : Store)
    (req : CreateDependencyRequest) (newId : String) : RpcOutcome Dependency × Store :=
  if poolOk then
    match Dependency.create { id := newId, blocking_epic_id := req.blocking_epic_id,
                              blocked_epic_id := req.blocked_epic_id } fault st with
    | .ok (d, st') => (.ok { id := d.id, blocking_epic_id := d.blocking_epic_id,
                             blocked_epic_id := d.blocked_epic_id }, st')
    | .error _ => (.err .unavailable "Database is unavailable", st)
  else (.panic "Db error", st)

/-- `delete_dependency` (src/controllers/dependencies.rs). -/
def delete_dependency (poolOk : Bool) (fault : Option String) (st : Store)
    (dependency_id : String) : RpcOutcome Dependency × Store :=
  if poolOk then
    match Dependency.delete dependency_id fault st with
    | .ok (d, st') => (.ok { id := d.id, blocking_epic_id := d.blocking_epic_id,
                             blocked_epic_id := d.blocked_epic_id }, st')
    | .error .notFound => (.err .notFound "Dependency not found", st)
    | .error (.other _) => (.err .unavailable "Database is unavailable", st)
  else (.panic "Db error", st)

/-! ## Streaming emission and detached event publish

Every search handler, on store success, materializes the result list, opens
an `mpsc::channel(1)` and spawns one producer task:

```text
tokio::spawn(async move {
    while let Some(item) = stream.next().await {
        match sender.send(Ok(item)).await { Ok(_) => {}, Err(_err) => break }
    }
    service.search_xxx_event(req).await;
});
```

The task iterates the already-materialized vector (no store access), breaks on
the first failed send (receiver dropped), and then submits the outcome event
exactly once, whether the loop ended naturally or by the break. -/

/-- One observable action of the spawned producer task. -/
inductive EmitAction where
  | sendAttempt (ok : Bool)
  | publish
  | storeCall
deriving DecidableEq, Repr

/-- The send loop: the i-th send attempt succeeds iff `accept i` (the
consumer detaching makes a send fail).  Returns the loop's action trace and
the successfully handed-off items. -/
def emitLoopRun {α : Type} (items : List α) (accept : Nat → Bool) (i : Nat) :
    List EmitAction × List α :=
  match items with
  | [] => ([], [])
  | x :: rest =>
    if accept i then
      let next := emitLoopRun rest accept (i + 1)
      (.sendAttempt true :: next.1, x :: next.2)
    else ([.sendAttempt false], [])

/-- The whole producer task: the send loop followed by the single outcome
event submission. -/
def emitRun {α : Type} (items : List α) (accept : Nat → Bool) :
    List EmitAction × List α :=
  let run := emitLoopRun items accept 0
  (run.1 ++ [.publish], run.2)

/-- `tokio::spawn(async move { service.xxx_event(req).await; })` as every
unary handler performs it: the publish is one attempt inside a detached task;
its `Result` is dropped by the `;` inside the task, the `JoinHandle` is
dropped by the handler, and nothing is retried.  `publishOk` is the transport
outcome of that single attempt; the function returns the caller-visible
outcome together with the number of publish attempts made. -/
def dispatchPublish {α : Type} (caller : RpcOutcome α) (_publishOk : Bool) :
    RpcOutcome α × Nat :=
  (caller, 1)

/-! ## RPC surface per entity (the methods of each `impl ...Service` block) -/

/-- The operation shapes appearing across the five service impls. -/
inductive OpKind where
  | getById
  | getByProjectId
  | search
  | create
  | update
  | delete
deriving DecidableEq, Repr

/-- Methods of `impl BoardsService for BoardsController`
(src/controllers/boards.rs): get_board_by_id, get_board_by_project_id,
create_board, delete_board. -/
def boardsServiceOps : List OpKind := [.getById, .getByProjectId, .create, .delete]

/-- Methods of `impl ColumnsService for ColumnsController`
(src/controllers/columns.rs). -/
def columnsServiceOps : List OpKind := [.getById, .search, .create, .update, .delete]

/-- Methods of `impl IssuesService for IssuesController`
(src/controllers/issues.rs). -/
def issuesServiceOps : List OpKind := [.getById, .search, .create, .update, .delete]

/-- Methods of `impl EpicsService for EpicsController`
(src/controllers/epics.rs). -/
def epicsServiceOps : List OpKind := [.getById, .search, .create, .update, .delete]

/-- Methods of `impl DependenciesService for DependenciesController`
(src/controllers/dependencies.rs): get_dependency_by_id, search_dependencies,
create_dependency, delete_dependency. -/
def dependenciesServiceOps : List OpKind := [.getById, .search, .create, .delete]

/-- The uniform five-operation surface the spec prescribes for every entity. -/
def standardFiveOps : List OpKind := [.getById, .search, .create, .update, .delete]

/-! ## Shared concrete data for evaluations -/

/-- A database with every table empty. -/
def emptyStore : Store := ⟨[], [], [], [], []⟩

/-! ## Claim theorems -/

/-- C1: the claim says every store failure other than an absent row surfaces
as UNAVAILABLE without a panic.  Evaluating the embedded handlers at forced
failures shows otherwise: a pool acquisition failure panics ("Db error") in
every handler, a store failure inside `Issue::create` panics ("Create issue
error") before the handler's Unavailable arm, `Column::delete` panics on a
store failure, and the auxiliary columns query of `create_epic` panics
("Create epic error") — while the same forced store failure on the Board
path does produce UNAVAILABLE, which is the intended classification the
panicking paths skip. -/
theorem c1_store_failures_panic :
    get_board_by_id false none emptyStore "b1" = .panic "Db error"
    ∧ (create_issue true (some "connection closed") emptyStore
        ⟨"c1", "e1", "t", "d"⟩ "i9").1 = .panic "Create issue error"
    ∧ (delete_column true (some "connection closed") emptyStore "c1").1
      = .panic "Update column error"
    ∧ (create_epic true (some "connection closed") none emptyStore
        ⟨none, none, "r", "n", none, some ⟨0, 0⟩, some ⟨0, 0⟩⟩ "e9").1
      = .panic "Create epic error"
    ∧ (create_board true (some "connection closed") emptyStore "P1" "b9").1
      = .err .unavailable "Database is unavailable" :=
  ⟨rfl, rfl, rfl, rfl, rfl⟩

/-- C2: the claim says GetById, Update and Delete on an absent id return
NotFound for every entity type.  GetById does, for all five entities, and so
do Board/Epic/Dependency Delete and Epic Update; but Issue and Column Update
and Delete panic on an absent id — with a non-empty changeset `get_results`
returns an empty vector whose `.first().unwrap()` fires, and an Issue Update
whose changeset is all-`None` dies even earlier, at `.expect("Update issue
error")` on diesel's refuse-to-build `QueryBuilderError` — so the claim
fails for them. -/
theorem c2_absent_id_behavior :
    get_board_by_id true none emptyStore "missing" = .err .notFound "Board not found"
    ∧ get_column_by_id true none emptyStore "missing" = .err .notFound "Column not found"
    ∧ get_issue_by_id true none emptyStore "missing" = .err .notFound "Issue not found"
    ∧ get_epic_by_id true none emptyStore "missing" = .err .notFound "Epic not found"
    ∧ get_dependency_by_id true none emptyStore "missing" = .err .notFound "Dependency not found"
    ∧ (delete_board true none emptyStore "missing").1 = .err .notFound "Board not found"
    ∧ (delete_epic true none emptyStore "missing").1 = .err .notFound "Epic not found"
    ∧ (delete_dependency true none emptyStore "missing").1 = .err .notFound "Dependency not found"
    ∧ (update_epic true none emptyStore
        ⟨"missing", none, none, none, none, none, some ⟨0, 0⟩, some ⟨0, 0⟩⟩).1
      = .err .notFound "Epic not found"
    ∧ (delete_issue true none emptyStore "missing").1
      = .panic "called `Option::unwrap()` on a `None` value"
    ∧ (delete_column true none emptyStore "missing").1
      = .panic "called `Option::unwrap()` on a `None` value"
    ∧ (update_issue true none emptyStore ⟨"missing", none, none, some "t", none⟩).1
      = .panic "called `Option::unwrap()` on a `None` value"
    ∧ (update_issue true none emptyStore ⟨"missing", none, none, none, none⟩).1
      = .panic "Update issue error"
    ∧ (update_column true none emptyStore ⟨"missing", "newname"⟩).1
      = .panic "called `Option::unwrap()` on a `None` value" :=
  ⟨rfl, rfl, rfl, rfl, rfl, rfl, rfl, rfl, rfl, rfl, rfl, rfl, rfl, rfl⟩

/-- C3: the claim says each search filter constrains its own declared field.
Evaluated on a one-row store: the issue `i1` has `epic_id = "E1"` and
`column_id = "C1"`, yet `Search(epic_id = "E1")` returns nothing while
`Search(epic_id = "C1")` returns `i1` — the `epic_id` filter constrains the
`column_id` column.  Likewise the epic `e1` has `due_date` at 100s, yet
`Search(max_due_date = 50s)` still returns it because the bound is applied to
`start_date` (0s), not `due_date`. -/
theorem c3_filters_hit_wrong_columns :
    search_issues true none ⟨[], [], [⟨"i1", "C1", "E1", "t", "d"⟩], [], []⟩
      ⟨[], none, some "E1", none, none⟩ = .ok []
    ∧ search_issues true none ⟨[], [], [⟨"i1", "C1", "E1", "t", "d"⟩], [], []⟩
      ⟨[], none, some "C1", none, none⟩ = .ok [⟨"i1", "C1", "E1", "t", "d"⟩]
    ∧ search_epics true none
      ⟨[], [], [], [⟨"e1", "c1", none, "r", "n", none, ⟨0, 0⟩, ⟨100, 0⟩⟩], []⟩
      ⟨[], none, none, some ⟨50, 0⟩, none, none⟩
      = .ok [ProtoEpic.ofEpic (Epic.fromRow ⟨"e1", "c1", none, "r", "n", none, ⟨0, 0⟩, ⟨100, 0⟩⟩)] :=
  ⟨rfl, rfl, rfl⟩

/-- C8 counterexample: the claim says all five entity types expose exactly
the uniform five operations.  The Boards service has neither Search nor
Update (it has GetByProjectId instead), and the Dependencies service has no
Update. -/
theorem c8_surface_not_uniform :
    boardsServiceOps ≠ standardFiveOps
    ∧ OpKind.search ∉ boardsServiceOps
    ∧ OpKind.update ∉ boardsServiceOps
    ∧ OpKind.update ∉ dependenciesServiceOps := by
  decide

/-- C8 amended: Column, Issue and Epic expose exactly the five standard
operations; Board exposes GetById, GetByProjectId, Create and Delete (no
Search, no Update); Dependency exposes GetById, Search, Create and Delete
(no Update). -/
theorem c8_surface_actual :
    ∀ op : OpKind,
      (op ∈ columnsServiceOps ↔ op ∈ standardFiveOps)
      ∧ (op ∈ issuesServiceOps ↔ op ∈ standardFiveOps)
      ∧ (op ∈ epicsServiceOps ↔ op ∈ standardFiveOps)
      ∧ (op ∈ boardsServiceOps ↔
          (op = .getById ∨ op = .getByProjectId ∨ op = .create ∨ op = .delete))
      ∧ (op ∈ dependenciesServiceOps ↔
          (op = .getById ∨ op = .search ∨ op = .create ∨ op = .delete)) := by
  intro op
  cases op <;> decide

/-- C4 counterexample: the claim says `Update(id, {})` (every field omitted)
leaves every stored field unchanged — for Epic including the dates.  The
embedded `update_epic` on a request with every optional field absent panics
(`data.start_date.as_ref().unwrap()`) instead of performing a no-op update on
the stored row `e1`. -/
theorem c4_empty_epic_changeset_panics :
    (update_epic true none ⟨[], [], [], [⟨"e1", "c1", none, "r", "n", none, ⟨0, 0⟩, ⟨0, 0⟩⟩], []⟩
      ⟨"e1", none, none, none, none, none, none, none⟩).1
      = .panic "called `Option::unwrap()` on a `None` value" :=
  rfl

/-- C4 amended: Update is a sparse changeset only where the request makes the
field optional, the handler passes it through, and at least one field is
supplied.  (a) An Issue Update whose changeset is all-`None` is refused by
diesel's query builder and panics at `.expect("Update issue error")` — it is
not a no-op success.  (b) For Issue, a changeset supplying some field (here
`title`) overwrites exactly that column and leaves every omitted column of
the matched row unchanged.  (c) For Epic, the five non-date fields are
sparse, but `start_date` / `due_date` are mandatory and always overwritten
(with the request timestamps truncated to whole seconds); every other column
of the matched row keeps its value.  (d) For Column, the request's mandatory
`column_name` is always written.  (Board and Dependency expose no Update.) -/
theorem c4_sparse_changeset_semantics :
    (∀ (st : Store) (iid : String),
      (update_issue true none st ⟨iid, none, none, none, none⟩).1
        = .panic "Update issue error")
    ∧ (∀ (st : Store) (r : Issue) (rest : List Issue) (iid t : String),
      st.issues.filter (fun i => i.id == iid) = r :: rest →
      update_issue true none st ⟨iid, none, none, some t, none⟩ =
        (.ok { r with title := t },
         { st with issues := st.issues.map (fun x =>
            if x.id == iid then { x with title := t } else x) }))
    ∧ (∀ (st : Store) (row : EpicRow) (rest : List EpicRow) (eid : String) (sd dd : Timestamp),
      st.epics.filter (fun e => e.id == eid) = row :: rest →
      update_epic true none st ⟨eid, none, none, none, none, none, some sd, some dd⟩ =
        (.ok (ProtoEpic.ofEpic (Epic.fromRow
            { row with start_date := ⟨sd.seconds, 0⟩, due_date := ⟨dd.seconds, 0⟩ })),
         { st with epics := st.epics.map (fun x =>
            if x.id == eid then { x with start_date := ⟨sd.seconds, 0⟩, due_date := ⟨dd.seconds, 0⟩ }
            else x) }))
    ∧ (∀ (st : Store) (c : Column) (rest : List Column) (req : ColumnIdAndName),
      st.columns.filter (fun x => x.id == req.column_id) = c :: rest →
      update_column true none st req =
        (.ok { c with name := req.column_name },
         { st with columns := st.columns.map (fun x =>
            if x.id == req.column_id then { x with name := req.column_name } else x) })) := by
  refine ⟨?_, ?_, ?_, ?_⟩
  · intro st iid
    rfl
  · intro st r rest iid t hfilter
    have happ : ∀ i : Issue, IssueChangeSet.apply ⟨none, none, some t, none⟩ i
        = { i with title := t } :=
      fun i => rfl
    simp [update_issue, Issue.update, IssueChangeSet.isNoChange, hfilter, happ]
  · intro st row rest eid sd dd hfilter
    have happ : ∀ e : EpicRow,
        EpicChangeSet.apply ⟨none, none, none, none, none, some ⟨sd.seconds, 0⟩, some ⟨dd.seconds, 0⟩⟩ e
          = { e with start_date := ⟨sd.seconds, 0⟩, due_date := ⟨dd.seconds, 0⟩ } :=
      fun e => rfl
    simp [update_epic, Epic.update, EpicChangeSet.isNoChange, hfilter, happ,
      ProtoEpic.ofEpic, Epic.fromRow]
  · intro st c rest req hfilter
    have happ : ∀ x : Column,
        ColumnChangeSet.apply ⟨some req.column_name⟩ x = { x with name := req.column_name } :=
      fun x => rfl
    simp [update_column, Column.update, ColumnChangeSet.isNoChange, hfilter, happ]

/-- C4 witness: the amended sparse-changeset theorem applied to a concrete
one-row-per-table store. -/
theorem c4_sparse_changeset_witness :
    (update_issue true none
        ⟨[], [⟨"c1", "b1", "old"⟩], [⟨"i1", "C1", "E1", "t", "d"⟩], [⟨"e1", "c1", none, "r", "n", none, ⟨0, 0⟩, ⟨0, 0⟩⟩], []⟩
        ⟨"i1", none, none, none, none⟩).1
      = .panic "Update issue error"
    ∧ update_issue true none
        ⟨[], [⟨"c1", "b1", "old"⟩], [⟨"i1", "C1", "E1", "t", "d"⟩], [⟨"e1", "c1", none, "r", "n", none, ⟨0, 0⟩, ⟨0, 0⟩⟩], []⟩
        ⟨"i1", none, none, some "t2", none⟩
      = (.ok ⟨"i1", "C1", "E1", "t2", "d"⟩,
         ⟨[], [⟨"c1", "b1", "old"⟩], [⟨"i1", "C1", "E1", "t2", "d"⟩], [⟨"e1", "c1", none, "r", "n", none, ⟨0, 0⟩, ⟨0, 0⟩⟩], []⟩)
    ∧ update_epic true none
        ⟨[], [⟨"c1", "b1", "old"⟩], [⟨"i1", "C1", "E1", "t", "d"⟩], [⟨"e1", "c1", none, "r", "n", none, ⟨0, 0⟩, ⟨0, 0⟩⟩], []⟩
        ⟨"e1", none, none, none, none, none, some ⟨5, 0⟩, some ⟨7, 0⟩⟩
      = (.ok (ProtoEpic.ofEpic (Epic.fromRow ⟨"e1", "c1", none, "r", "n", none, ⟨5, 0⟩, ⟨7, 0⟩⟩)),
         ⟨[], [⟨"c1", "b1", "old"⟩], [⟨"i1", "C1", "E1", "t", "d"⟩], [⟨"e1", "c1", none, "r", "n", none, ⟨5, 0⟩, ⟨7, 0⟩⟩], []⟩)
    ∧ update_column true none
        ⟨[], [⟨"c1", "b1", "old"⟩], [⟨"i1", "C1", "E1", "t", "d"⟩], [⟨"e1", "c1", none, "r", "n", none, ⟨0, 0⟩, ⟨0, 0⟩⟩], []⟩
        ⟨"c1", "renamed"⟩
      = (.ok ⟨"c1", "b1", "renamed"⟩,
         ⟨[], [⟨"c1", "b1", "renamed"⟩], [⟨"i1", "C1", "E1", "t", "d"⟩], [⟨"e1", "c1", none, "r", "n", none, ⟨0, 0⟩, ⟨0, 0⟩⟩], []⟩) := by
  refine ⟨?_, ?_, ?_, ?_⟩
  · exact c4_sparse_changeset_semantics.1
      ⟨[], [⟨"c1", "b1", "old"⟩], [⟨"i1", "C1", "E1", "t", "d"⟩], [⟨"e1", "c1", none, "r", "n", none, ⟨0, 0⟩, ⟨0, 0⟩⟩], []⟩
      "i1"
  · exact (c4_sparse_changeset_semantics.2.1
      ⟨[], [⟨"c1", "b1", "old"⟩], [⟨"i1", "C1", "E1", "t", "d"⟩], [⟨"e1", "c1", none, "r", "n", none, ⟨0, 0⟩, ⟨0, 0⟩⟩], []⟩
      ⟨"i1", "C1", "E1", "t", "d"⟩ [] "i1" "t2" (by decide)).trans (by decide)
  · exact (c4_sparse_changeset_semantics.2.2.1
      ⟨[], [⟨"c1", "b1", "old"⟩], [⟨"i1", "C1", "E1", "t", "d"⟩], [⟨"e1", "c1", none, "r", "n", none, ⟨0, 0⟩, ⟨0, 0⟩⟩], []⟩
      ⟨"e1", "c1", none, "r", "n", none, ⟨0, 0⟩, ⟨0, 0⟩⟩ [] "e1" ⟨5, 0⟩ ⟨7, 0⟩ (by decide)).trans (by decide)
  · exact (c4_sparse_changeset_semantics.2.2.2
      ⟨[], [⟨"c1", "b1", "old"⟩], [⟨"i1", "C1", "E1", "t", "d"⟩], [⟨"e1", "c1", none, "r", "n", none, ⟨0, 0⟩, ⟨0, 0⟩⟩], []⟩
      ⟨"c1", "b1", "old"⟩ [] ⟨"c1", "renamed"⟩ (by decide)).trans (by decide)

/-! ### C5 helpers: each search as "matching set, then pagination" -/

/-- The filter chain of `search_issues` without the pagination clauses. -/
def issuesMatching (st : Store) (p : SearchIssuesParams) : List Issue :=
  let rows := st.issues
  let rows := if p.issues_ids.isEmpty then rows
    else rows.filter (fun i => p.issues_ids.contains i.id)
  let rows := match p.column_id with
    | some c => rows.filter (fun i => i.column_id == c)
    | none => rows
  match p.epic_id with
  | some e => rows.filter (fun i => i.column_id == e)
  | none => rows

/-- The filter chain of `search_epics` without the pagination clauses. -/
def epicsMatching (st : Store) (p : SearchEpicsParams) : List EpicRow :=
  let rows := st.epics
  let rows := if p.epics_ids.isEmpty then rows
    else rows.filter (fun e => p.epics_ids.contains e.id)
  let rows := match p.column_id with
    | some c => rows.filter (fun e => e.column_id == c)
    | none => rows
  let rows := match p.min_start_date with
    | some ts => rows.filter (fun e => NDT.le ⟨ts.seconds, ts.nanos⟩ e.start_date)
    | none => rows
  match p.max_due_date with
  | some ts => rows.filter (fun e => NDT.le e.start_date ⟨ts.seconds, ts.nanos⟩)
  | none => rows

theorem search_issues_ok_eq (st : Store) (p : SearchIssuesParams) :
    search_issues true none st p
      = .ok (applyPagination (issuesMatching st p) p.limit p.offset) :=
  rfl

theorem search_epics_ok_eq (st : Store) (p : SearchEpicsParams) :
    search_epics true none st p
      = .ok ((applyPagination (epicsMatching st p) p.limit p.offset).map
          (fun r => ProtoEpic.ofEpic (Epic.fromRow r))) :=
  rfl

theorem issuesMatching_pagination_free (st : Store) (p : SearchIssuesParams) :
    issuesMatching st { p with limit := none, offset := none } = issuesMatching st p :=
  rfl

theorem epicsMatching_pagination_free (st : Store) (p : SearchEpicsParams) :
    epicsMatching st { p with limit := none, offset := none } = epicsMatching st p :=
  rfl

theorem applyPagination_none_none {α : Type} (l : List α) :
    applyPagination l none none = l :=
  rfl

theorem applyPagination_map {α β : Type} (f : α → β) (l : List α) (lim off : Option Nat) :
    applyPagination (l.map f) lim off = (applyPagination l lim off).map f := by
  cases lim <;> cases off <;> simp [applyPagination, List.map_take, List.map_drop]

theorem applyPagination_length_le {α : Type} (l : List α) (n : Nat) (off : Option Nat) :
    (applyPagination l (some n) off).length ≤ n := by
  cases off <;> simp [applyPagination]

/-- C5 counterexample: the claim requires limit/offset to bound Column and
Dependency Search results as well.  On a two-row store, Column Search with
`limit = 1` returns both rows, and `offset = 1` skips nothing; same for
Dependency Search. -/
theorem c5_columns_dependencies_ignore_pagination :
    search_columns true none ⟨[], [⟨"c1", "b1", "one"⟩, ⟨"c2", "b1", "two"⟩], [], [], []⟩
      ⟨[], none, some 1, none⟩ = .ok [⟨"c1", "b1", "one"⟩, ⟨"c2", "b1", "two"⟩]
    ∧ search_columns true none ⟨[], [⟨"c1", "b1", "one"⟩, ⟨"c2", "b1", "two"⟩], [], [], []⟩
      ⟨[], none, none, some 1⟩ = .ok [⟨"c1", "b1", "one"⟩, ⟨"c2", "b1", "two"⟩]
    ∧ search_dependencies true none ⟨[], [], [], [], [⟨"d1", "e1", "e2"⟩, ⟨"d2", "e1", "e3"⟩]⟩
      ⟨[], none, none, some 1, none⟩ = .ok [⟨"d1", "e1", "e2"⟩, ⟨"d2", "e1", "e3"⟩] :=
  ⟨rfl, rfl, rfl⟩

/-- C5 amended: Issue and Epic Search apply `limit` / `offset` as SQL clauses
over the matching set (so a supplied limit bounds the cardinality and a
supplied offset skips the first matches), while Column and Dependency Search
ignore both fields entirely and always return the full matching set. -/
theorem c5_pagination_semantics :
    (∀ (st : Store) (p : SearchIssuesParams) (rows : List Issue),
      search_issues true none st { p with limit := none, offset := none } = .ok rows →
      search_issues true none st p = .ok (applyPagination rows p.limit p.offset))
    ∧ (∀ (st : Store) (p : SearchIssuesParams) (n : Nat) (rows : List Issue),
      p.limit = some n → search_issues true none st p = .ok rows → rows.length ≤ n)
    ∧ (∀ (st : Store) (p : SearchEpicsParams) (rows : List ProtoEpic),
      search_epics true none st { p with limit := none, offset := none } = .ok rows →
      search_epics true none st p = .ok (applyPagination rows p.limit p.offset))
    ∧ (∀ (st : Store) (p : SearchEpicsParams) (n : Nat) (rows : List ProtoEpic),
      p.limit = some n → search_epics true none st p = .ok rows → rows.length ≤ n)
    ∧ (∀ (st : Store) (p : SearchColumnsParams),
      search_columns true none st p
        = search_columns true none st { p with limit := none, offset := none })
    ∧ (∀ (st : Store) (p : SearchDependenciesParams),
      search_dependencies true none st p
        = search_dependencies true none st { p with limit := none, offset := none }) := by
  refine ⟨?_, ?_, ?_, ?_, ?_, ?_⟩
  · intro st p rows h
    rw [search_issues_ok_eq] at h
    have hm : issuesMatching st p = rows := by
      have := h
      rw [issuesMatching_pagination_free] at this
      simpa [applyPagination] using this
    rw [search_issues_ok_eq, hm]
  · intro st p n rows hlim h
    rw [search_issues_ok_eq, hlim] at h
    have : applyPagination (issuesMatching st p) (some n) p.offset = rows := by
      simpa using h
    rw [← this]
    exact applyPagination_length_le _ _ _
  · intro st p rows h
    rw [search_epics_ok_eq] at h
    have hm : (epicsMatching st p).map (fun r => ProtoEpic.ofEpic (Epic.fromRow r)) = rows := by
      have := h
      rw [epicsMatching_pagination_free] at this
      simpa [applyPagination] using this
    rw [search_epics_ok_eq, ← hm, ← applyPagination_map]
  · intro st p n rows hlim h
    rw [search_epics_ok_eq, hlim] at h
    have : (applyPagination (epicsMatching st p) (some n) p.offset).map
        (fun r => ProtoEpic.ofEpic (Epic.fromRow r)) = rows := by
      simpa using h
    rw [← this]
    simpa using applyPagination_length_le (epicsMatching st p) n p.offset
  · intro st p
    rfl
  · intro st p
    rfl

/-- C5 witness: the pagination theorem applied to a three-issue store with
`limit = 1`, `offset = 1`, and the ignore-pagination conjuncts applied to a
concrete Column / Dependency search. -/
theorem c5_pagination_witness :
    search_issues true none
        ⟨[], [], [⟨"i1", "c", "e", "t", "d"⟩, ⟨"i2", "c", "e", "t", "d"⟩, ⟨"i3", "c", "e", "t", "d"⟩], [], []⟩
        ⟨[], none, none, some 1, some 1⟩ = .ok [⟨"i2", "c", "e", "t", "d"⟩]
    ∧ search_columns true none ⟨[], [⟨"c1", "b1", "one"⟩], [], [], []⟩ ⟨[], none, some 0, some 9⟩
      = search_columns true none ⟨[], [⟨"c1", "b1", "one"⟩], [], [], []⟩ ⟨[], none, none, none⟩
    ∧ search_dependencies true none ⟨[], [], [], [], [⟨"d1", "e1", "e2"⟩]⟩ ⟨[], none, none, some 0, some 9⟩
      = search_dependencies true none ⟨[], [], [], [], [⟨"d1", "e1", "e2"⟩]⟩ ⟨[], none, none, none, none⟩ := by
  refine ⟨?_, ?_, ?_⟩
  · exact (c5_pagination_semantics.1
      ⟨[], [], [⟨"i1", "c", "e", "t", "d"⟩, ⟨"i2", "c", "e", "t", "d"⟩, ⟨"i3", "c", "e", "t", "d"⟩], [], []⟩
      ⟨[], none, none, some 1, some 1⟩
      [⟨"i1", "c", "e", "t", "d"⟩, ⟨"i2", "c", "e", "t", "d"⟩, ⟨"i3", "c", "e", "t", "d"⟩]
      (by decide)).trans (by decide)
  · exact c5_pagination_semantics.2.2.2.2.1 ⟨[], [⟨"c1", "b1", "one"⟩], [], [], []⟩ ⟨[], none, some 0, some 9⟩
  · exact c5_pagination_semantics.2.2.2.2.2 ⟨[], [], [], [], [⟨"d1", "e1", "e2"⟩]⟩ ⟨[], none, none, some 0, some 9⟩

/-! ### C6 helpers: properties of the producer loop -/

theorem emitLoopRun_delivered_front {α : Type} (items : List α) (accept : Nat → Bool)
    (i : Nat) : (emitLoopRun items accept i).2 <+: items := by
  induction items generalizing i with
  | nil => simp [emitLoopRun]
  | cons x rest ih =>
    by_cases h : accept i
    · obtain ⟨t, ht⟩ := ih (i + 1)
      exact ⟨t, by simp [emitLoopRun, h, ht]⟩
    · exact ⟨x :: rest, by simp [emitLoopRun, h]⟩

theorem emitLoopRun_no_storeCall {α : Type} (items : List α) (accept : Nat → Bool)
    (i : Nat) : EmitAction.storeCall ∉ (emitLoopRun items accept i).1 := by
  induction items generalizing i with
  | nil => simp [emitLoopRun]
  | cons x rest ih =>
    by_cases h : accept i
    · simpa [emitLoopRun, h] using ih (i + 1)
    · simp [emitLoopRun, h]

theorem emitLoopRun_stops_after_failure {α : Type} (items : List α) (accept : Nat → Bool)
    (i : Nat) :
    ∀ pre post, (emitLoopRun items accept i).1 = pre ++ .sendAttempt false :: post →
      post = [] := by
  induction items generalizing i with
  | nil =>
    intro pre post h
    simp [emitLoopRun] at h
  | cons x rest ih =>
    intro pre post h
    by_cases hacc : accept i
    · rw [emitLoopRun] at h
      simp only [hacc, if_true] at h
      cases pre with
      | nil => simp at h
      | cons a pre' =>
        rw [List.cons_append] at h
        exact ih (i + 1) pre' post (List.tail_eq_of_cons_eq h)
    · rw [emitLoopRun] at h
      simp only [hacc, if_false] at h
      cases pre with
      | nil =>
        simp at h
        exact h
      | cons a pre' =>
        rw [List.cons_append] at h
        have := List.tail_eq_of_cons_eq h
        exact absurd this.symm (List.append_ne_nil_of_right_ne_nil pre' (by simp))

/-- C6: the spawned Search producer loop.  Its handed-off items are a prefix
of the materialized result set in order; its action trace contains no store
call at all; and whenever the trace contains a failed send, everything after
that failed send is just the single outcome-event submission — no further
send and no store call. -/
theorem c6_emission_stops_on_failed_handoff {α : Type} (items : List α)
    (accept : Nat → Bool) :
    (emitRun items accept).2 <+: items
    ∧ EmitAction.storeCall ∉ (emitRun items accept).1
    ∧ ∀ pre post, (emitRun items accept).1 = pre ++ .sendAttempt false :: post →
        post = [.publish] := by
  refine ⟨emitLoopRun_delivered_front items accept 0, ?_, ?_⟩
  · have h := emitLoopRun_no_storeCall items accept 0
    simp [emitRun]
    exact h
  · intro pre post h
    simp only [emitRun] at h
    rcases List.append_eq_append_iff.mp h with ⟨a, ha, hb⟩ | ⟨c, hc, hd⟩
    · cases a with
      | nil => simp at hb
      | cons y a' =>
        have := List.tail_eq_of_cons_eq hb
        exact absurd this.symm (List.append_ne_nil_of_right_ne_nil a' (by simp))
    · cases c with
      | nil => simp at hd
      | cons y c' =>
        have hy := List.head_eq_of_cons_eq hd
        have hpost : post = c' ++ [EmitAction.publish] := List.tail_eq_of_cons_eq hd
        have hc' : c' = [] := by
          apply emitLoopRun_stops_after_failure items accept 0 pre c'
          rw [hc, hy]
        rw [hpost, hc']
        rfl

/-- C6 witness: the emission theorem applied to three items and a consumer
that accepts only the first handoff. -/
theorem c6_emission_witness :
    (emitRun [1, 2, 3] (fun i => i == 0)).2 <+: [1, 2, 3]
    ∧ ([EmitAction.publish] : List EmitAction) = [.publish] :=
  ⟨(c6_emission_stops_on_failed_handoff [1, 2, 3] (fun i => i == 0)).1,
   (c6_emission_stops_on_failed_handoff [1, 2, 3] (fun i => i == 0)).2.2
     [.sendAttempt true] [.publish] (by decide)⟩

/-- C7: every controller method computes its caller-visible outcome first and
then `tokio::spawn`s the single outcome-event publish, dropping both the
publish `Result` (inside the task) and the `JoinHandle`; nothing of the
publish feeds back into the response.  `dispatchPublish` embeds that step:
for any handler outcome the caller view is identical for a succeeding and a
failing publish, exactly one publish attempt is made (no retry), and the two
cited handlers composed with the dispatch are publish-outcome-invariant
end to end. -/
theorem c7_publish_isolated_from_caller :
    (∀ (α : Type) (caller : RpcOutcome α) (p p' : Bool),
      (dispatchPublish caller p).1 = (dispatchPublish caller p').1
      ∧ (dispatchPublish caller p).2 = 1)
    ∧ (∀ (poolOk : Bool) (fault : Option String) (st : Store) (bid : String) (p p' : Bool),
      dispatchPublish (get_board_by_id poolOk fault st bid) p
        = dispatchPublish (get_board_by_id poolOk fault st bid) p')
    ∧ (∀ (poolOk : Bool) (fault : Option String) (st : Store) (eid : String) (p p' : Bool),
      dispatchPublish (get_epic_by_id poolOk fault st eid) p
        = dispatchPublish (get_epic_by_id poolOk fault st eid) p') :=
  ⟨fun _ _ _ _ => ⟨rfl, rfl⟩, fun _ _ _ _ _ _ => rfl, fun _ _ _ _ _ _ => rfl⟩

/-- C9: for each of the five entities, a successful Create followed by
GetById of the returned record's id on the resulting store returns that very
record, field for field — provided the minted id is fresh (ids are
server-generated uuids, unique by design). -/
theorem c9_create_then_get_roundtrip :
    (∀ (st : Store) (projId newId : String) (r : Board) (st' : Store),
      (∀ b ∈ st.boards, b.id ≠ newId) →
      create_board true none st projId newId = (.ok r, st') →
      get_board_by_id true none st' r.id = .ok r)
    ∧ (∀ (st : Store) (req : BoardIdAndColumnName) (newId : String) (r : Column) (st' : Store),
      (∀ c ∈ st.columns, c.id ≠ newId) →
      create_column true none st req newId = (.ok r, st') →
      get_column_by_id true none st' r.id = .ok r)
    ∧ (∀ (st : Store) (req : CreateIssueRequest) (newId : String) (r : Issue) (st' : Store),
      (∀ i ∈ st.issues, i.id ≠ newId) →
      create_issue true none st req newId = (.ok r, st') →
      get_issue_by_id true none st' r.id = .ok r)
    ∧ (∀ (st : Store) (req : CreateDependencyRequest) (newId : String) (r : Dependency) (st' : Store),
      (∀ d ∈ st.dependencies, d.id ≠ newId) →
      create_dependency true none st req newId = (.ok r, st') →
      get_dependency_by_id true none st' r.id = .ok r)
    ∧ (∀ (st : Store) (req : CreateEpicRequest) (newId : String) (r : ProtoEpic) (st' : Store),
      (∀ e ∈ st.epics, e.id ≠ newId) →
      create_epic true none none st req newId = (.ok r, st') →
      get_epic_by_id true none st' r.id = .ok r) := by
  refine ⟨?_, ?_, ?_, ?_, ?_⟩
  · intro st projId newId r st' hfresh h
    simp only [create_board, Board.create, if_true, Prod.mk.injEq,
      RpcOutcome.ok.injEq] at h
    obtain ⟨hr, hst⟩ := h
    subst hst
    subst hr
    have hnil : st.boards.filter (fun b => b.id == newId) = [] :=
      List.filter_eq_nil_iff.mpr (fun b hb => by simp [hfresh b hb])
    simp [get_board_by_id, List.filter_append, hnil]
  · intro st req newId r st' hfresh h
    simp only [create_column, Column.create, if_true, Prod.mk.injEq,
      RpcOutcome.ok.injEq] at h
    obtain ⟨hr, hst⟩ := h
    subst hst
    subst hr
    have hnil : st.columns.filter (fun c => c.id == newId) = [] :=
      List.filter_eq_nil_iff.mpr (fun c hc => by simp [hfresh c hc])
    simp [get_column_by_id, List.filter_append, hnil]
  · intro st req newId r st' hfresh h
    simp only [create_issue, Issue.create, if_true, Prod.mk.injEq,
      RpcOutcome.ok.injEq] at h
    obtain ⟨hr, hst⟩ := h
    subst hst
    subst hr
    have hnil : st.issues.filter (fun i => i.id == newId) = [] :=
      List.filter_eq_nil_iff.mpr (fun i hi => by simp [hfresh i hi])
    simp [get_issue_by_id, List.filter_append, hnil]
  · intro st req newId r st' hfresh h
    simp only [create_dependency, Dependency.create, if_true, Prod.mk.injEq,
      RpcOutcome.ok.injEq] at h
    obtain ⟨hr, hst⟩ := h
    subst hst
    subst hr
    have hnil : st.dependencies.filter (fun d => d.id == newId) = [] :=
      List.filter_eq_nil_iff.mpr (fun d hd => by simp [hfresh d hd])
    simp [get_dependency_by_id, List.filter_append, hnil]
  · intro st req newId r st' hfresh h
    have hnil : st.epics.filter (fun e => e.id == newId) = [] :=
      List.filter_eq_nil_iff.mpr (fun e he => by simp [hfresh e he])
    rcases hcol : req.column_id with _ | c
    case some =>
      rcases hsd : req.start_date with _ | sd
      case none =>
        rw [create_epic] at h
        simp [hcol, hsd] at h
      case some =>
        rcases hdd : req.due_date with _ | dd
        case none =>
          rw [create_epic] at h
          simp [hcol, hsd, hdd] at h
        case some =>
          rw [create_epic] at h
          simp only [hcol, hsd, hdd, if_true, Epic.create, NewEpic.toRow,
            Prod.mk.injEq, RpcOutcome.ok.injEq] at h
          obtain ⟨hr, hst⟩ := h
          subst hst
          subst hr
          simp [get_epic_by_id, List.filter_append, hnil, Epic.fromRow, ProtoEpic.ofEpic]
    case none =>
      rcases hcols : st.columns with _ | ⟨c0, crest⟩
      case nil =>
        rw [create_epic] at h
        simp [hcol, hcols] at h
      case cons =>
        rcases hsd : req.start_date with _ | sd
        case none =>
          rw [create_epic] at h
          simp [hcol, hcols, hsd] at h
        case some =>
          rcases hdd : req.due_date with _ | dd
          case none =>
            rw [create_epic] at h
            simp [hcol, hcols, hsd, hdd] at h
          case some =>
            rw [create_epic] at h
            simp only [hcol, hcols, hsd, hdd, if_true, List.take_succ_cons,
              List.take_zero, List.head?_cons, Epic.create, NewEpic.toRow,
              Prod.mk.injEq, RpcOutcome.ok.injEq] at h
            obtain ⟨hr, hst⟩ := h
            subst hst
            subst hr
            simp [get_epic_by_id, List.filter_append, hnil, Epic.fromRow, ProtoEpic.ofEpic]

/-- C8 witness: the surface theorem applied to the Search operation. -/
theorem c8_surface_actual_witness :
    (OpKind.search ∈ columnsServiceOps ↔ OpKind.search ∈ standardFiveOps)
    ∧ (OpKind.search ∈ issuesServiceOps ↔ OpKind.search ∈ standardFiveOps)
    ∧ (OpKind.search ∈ epicsServiceOps ↔ OpKind.search ∈ standardFiveOps)
    ∧ (OpKind.search ∈ boardsServiceOps ↔
        (OpKind.search = .getById ∨ OpKind.search = .getByProjectId
          ∨ OpKind.search = .create ∨ OpKind.search = .delete))
    ∧ (OpKind.search ∈ dependenciesServiceOps ↔
        (OpKind.search = .getById ∨ OpKind.search = .search
          ∨ OpKind.search = .create ∨ OpKind.search = .delete)) :=
  c8_surface_actual .search

/-- C9 witness: the round-trip theorem applied to an empty store for each of
the five entities. -/
theorem c9_create_then_get_witness :
    get_board_by_id true none ⟨[⟨"b1", "P1"⟩], [], [], [], []⟩ "b1" = .ok ⟨"b1", "P1"⟩
    ∧ get_column_by_id true none ⟨[], [⟨"c1", "b1", "todo"⟩], [], [], []⟩ "c1"
      = .ok ⟨"c1", "b1", "todo"⟩
    ∧ get_issue_by_id true none ⟨[], [], [⟨"i1", "c1", "e1", "t", "d"⟩], [], []⟩ "i1"
      = .ok ⟨"i1", "c1", "e1", "t", "d"⟩
    ∧ get_dependency_by_id true none ⟨[], [], [], [], [⟨"d1", "e1", "e2"⟩]⟩ "d1"
      = .ok ⟨"d1", "e1", "e2"⟩
    ∧ get_epic_by_id true none
        ⟨[], [], [], [⟨"e1", "c1", none, "r", "n", none, ⟨5, 0⟩, ⟨7, 0⟩⟩], []⟩ "e1"
      = .ok (ProtoEpic.ofEpic (Epic.fromRow ⟨"e1", "c1", none, "r", "n", none, ⟨5, 0⟩, ⟨7, 0⟩⟩)) := by
  refine ⟨?_, ?_, ?_, ?_, ?_⟩
  · exact c9_create_then_get_roundtrip.1 emptyStore "P1" "b1" ⟨"b1", "P1"⟩
      ⟨[⟨"b1", "P1"⟩], [], [], [], []⟩ (by simp [emptyStore]) rfl
  · exact c9_create_then_get_roundtrip.2.1 emptyStore ⟨"b1", "todo"⟩ "c1" ⟨"c1", "b1", "todo"⟩
      ⟨[], [⟨"c1", "b1", "todo"⟩], [], [], []⟩ (by simp [emptyStore]) rfl
  · exact c9_create_then_get_roundtrip.2.2.1 emptyStore ⟨"c1", "e1", "t", "d"⟩ "i1"
      ⟨"i1", "c1", "e1", "t", "d"⟩ ⟨[], [], [⟨"i1", "c1", "e1", "t", "d"⟩], [], []⟩
      (by simp [emptyStore]) rfl
  · exact c9_create_then_get_roundtrip.2.2.2.1 emptyStore ⟨"e1", "e2"⟩ "d1"
      ⟨"d1", "e1", "e2"⟩ ⟨[], [], [], [], [⟨"d1", "e1", "e2"⟩]⟩ (by simp [emptyStore]) rfl
  · exact c9_create_then_get_roundtrip.2.2.2.2 emptyStore
      ⟨some "c1", none, "r", "n", none, some ⟨5, 0⟩, some ⟨7, 0⟩⟩ "e1"
      (ProtoEpic.ofEpic (Epic.fromRow ⟨"e1", "c1", none, "r", "n", none, ⟨5, 0⟩, ⟨7, 0⟩⟩))
      ⟨[], [], [], [⟨"e1", "c1", none, "r", "n", none, ⟨5, 0⟩, ⟨7, 0⟩⟩], []⟩
      (by simp [emptyStore]) rfl

/-- C10: `create_epic` with `column_id` absent from the request does not
reject the call: it reads the first row of the `columns` table and uses that
column's id for the new epic (a).  If the columns table is empty the call
panics on the `.unwrap()` of the empty auxiliary result (b), and if the
auxiliary query itself fails the call panics via `.expect("Create epic
error")` (c) — no error status is returned in either case. -/
theorem c10_create_epic_defaults_column :
    (∀ (st : Store) (req : CreateEpicRequest) (newId : String) (c : Column)
        (rest : List Column) (sd dd : Timestamp),
      req.column_id = none → st.columns = c :: rest →
      req.start_date = some sd → req.due_date = some dd →
      create_epic true none none st req newId =
        (.ok (ProtoEpic.ofEpic (Epic.fromRow
            { id := newId, column_id := c.id, assignee_id := req.assignee_id,
              reporter_id := req.reporter_id, name := req.name,
              description := req.description,
              start_date := ⟨sd.seconds, 0⟩, due_date := ⟨dd.seconds, 0⟩ })),
         { st with epics := st.epics ++
            [{ id := newId, column_id := c.id, assignee_id := req.assignee_id,
               reporter_id := req.reporter_id, name := req.name,
               description := req.description,
               start_date := ⟨sd.seconds, 0⟩, due_date := ⟨dd.seconds, 0⟩ }] }))
    ∧ (∀ (st : Store) (req : CreateEpicRequest) (newId : String),
      req.column_id = none → st.columns = [] →
      (create_epic true none none st req newId).1
        = .panic "called `Option::unwrap()` on a `None` value")
    ∧ (∀ (st : Store) (req : CreateEpicRequest) (newId : String) (m : String),
      req.column_id = none →
      (create_epic true (some m) none st req newId).1 = .panic "Create epic error") := by
  refine ⟨?_, ?_, ?_⟩
  · intro st req newId c rest sd dd hcol hcols hsd hdd
    rw [create_epic]
    simp [hcol, hcols, hsd, hdd, Epic.create, NewEpic.toRow, ProtoEpic.ofEpic, Epic.fromRow]
  · intro st req newId hcol hcols
    rw [create_epic]
    simp [hcol, hcols]
  · intro st req newId m hcol
    rw [create_epic]
    simp [hcol]

/-- C10 witness: the default-column theorem applied to a store whose columns
table holds exactly one row, to an empty store, and to a failing auxiliary
query. -/
theorem c10_create_epic_defaults_column_witness :
    create_epic true none none ⟨[], [⟨"c1", "b1", "todo"⟩], [], [], []⟩
        ⟨none, none, "r", "n", none, some ⟨0, 0⟩, some ⟨0, 0⟩⟩ "e1"
      = (.ok (ProtoEpic.ofEpic (Epic.fromRow ⟨"e1", "c1", none, "r", "n", none, ⟨0, 0⟩, ⟨0, 0⟩⟩)),
         ⟨[], [⟨"c1", "b1", "todo"⟩], [], [⟨"e1", "c1", none, "r", "n", none, ⟨0, 0⟩, ⟨0, 0⟩⟩], []⟩)
    ∧ (create_epic true none none emptyStore
        ⟨none, none, "r", "n", none, some ⟨0, 0⟩, some ⟨0, 0⟩⟩ "e1").1
      = .panic "called `Option::unwrap()` on a `None` value"
    ∧ (create_epic true (some "connection refused") none emptyStore
        ⟨none, none, "r", "n", none, some ⟨0, 0⟩, some ⟨0, 0⟩⟩ "e1").1
      = .panic "Create epic error" := by
  refine ⟨?_, ?_, ?_⟩
  · exact (c10_create_epic_defaults_column.1 ⟨[], [⟨"c1", "b1", "todo"⟩], [], [], []⟩
      ⟨none, none, "r", "n", none, some ⟨0, 0⟩, some ⟨0, 0⟩⟩ "e1" ⟨"c1", "b1", "todo"⟩ []
      ⟨0, 0⟩ ⟨0, 0⟩ rfl rfl rfl rfl).trans (by decide)
  · exact c10_create_epic_defaults_column.2.1 emptyStore
      ⟨none, none, "r", "n", none, some ⟨0, 0⟩, some ⟨0, 0⟩⟩ "e1" rfl rfl
  · exact c10_create_epic_defaults_column.2.2 emptyStore
      ⟨none, none, "r", "n", none, some ⟨0, 0⟩, some ⟨0, 0⟩⟩ "e1" "connection refused" rfl

end SyntxIssues
